import Mathlib

/-!
Verification of the BotCrypto trading engine (`src/lib/trading.ts`).

Shallow embedding conventions:
* JavaScript `number` values are modelled as exact rationals (`ℚ`); IEEE-754
  rounding is abstracted away.  At the places where the source can divide by
  zero (so that a JavaScript run would produce `Infinity` or `NaN`), the value
  is modelled with the type `JSNum`, which adds the special values `posInf`,
  `negInf`, and `nan` to `ℚ`, with JavaScript arithmetic/comparison semantics.
* `Date.now() / 1000` (read by `filterDataByTimeframe`) is modelled as an
  explicit parameter `now` threaded into `filterDataByTimeframe` and
  `generateSignals`; a concrete run of the program corresponds to one choice
  of `now`.
* JavaScript loops `for (i = a; i < b; i++)` become `List.range' a (b - a)`;
  in-bounds element reads become `List.getD` with a default that is never
  used at the indices the loops produce.
* `TimeframeType` and the `timeframe` field of `StrategyParams` are modelled
  from their use in `trading.ts` (`"1m" | "3m" | "6m" | "all"`); the other
  configuration types follow `lib/types.ts` (`EMAPeriod = 7 | 25 | 99`,
  `RSIPeriod = 14 | 21`).
-/

namespace BotCrypto

/-! ## A model of JavaScript numbers where division can blow up -/

/-- A JavaScript `number` as an exact rational, or one of the special IEEE
values `Infinity`, `-Infinity`, `NaN` (rounding abstracted away). -/
inductive JSNum where
  | num (q : ℚ)
  | posInf
  | negInf
  | nan
deriving DecidableEq, Repr

namespace JSNum

/-- JavaScript addition on `JSNum`. -/
def add : JSNum → JSNum → JSNum
  | num a, num b => num (a + b)
  | num _, posInf => posInf
  | num _, negInf => negInf
  | posInf, num _ => posInf
  | negInf, num _ => negInf
  | posInf, posInf => posInf
  | negInf, negInf => negInf
  | posInf, negInf => nan
  | negInf, posInf => nan
  | _, _ => nan

/-- JavaScript subtraction on `JSNum`. -/
def sub : JSNum → JSNum → JSNum
  | num a, num b => num (a - b)
  | num _, posInf => negInf
  | num _, negInf => posInf
  | posInf, num _ => posInf
  | negInf, num _ => negInf
  | posInf, negInf => posInf
  | negInf, posInf => negInf
  | posInf, posInf => nan
  | negInf, negInf => nan
  | _, _ => nan

/-- JavaScript multiplication on `JSNum`. -/
def mul : JSNum → JSNum → JSNum
  | num a, num b => num (a * b)
  | num a, posInf => if a > 0 then posInf else if a < 0 then negInf else nan
  | num a, negInf => if a > 0 then negInf else if a < 0 then posInf else nan
  | posInf, num b => if b > 0 then posInf else if b < 0 then negInf else nan
  | negInf, num b => if b > 0 then negInf else if b < 0 then posInf else nan
  | posInf, posInf => posInf
  | negInf, negInf => posInf
  | posInf, negInf => negInf
  | negInf, posInf => negInf
  | _, _ => nan

/-- JavaScript division on `JSNum`: division by zero yields a signed
infinity (or `NaN` for `0/0`), division by an infinity yields `0`. -/
def div : JSNum → JSNum → JSNum
  | num a, num b =>
      if b = 0 then (if a > 0 then posInf else if a < 0 then negInf else nan)
      else num (a / b)
  | num _, posInf => num 0
  | num _, negInf => num 0
  | posInf, num b => if b ≥ 0 then posInf else negInf
  | negInf, num b => if b ≥ 0 then negInf else posInf
  | _, _ => nan

/-- JavaScript `<` on `JSNum` (`NaN` compares false to everything). -/
def blt : JSNum → JSNum → Bool
  | num a, num b => a < b
  | num _, posInf => true
  | negInf, num _ => true
  | negInf, posInf => true
  | _, _ => false

/-- JavaScript `>` on `JSNum`. -/
def bgt (a b : JSNum) : Bool := blt b a

/-- JavaScript truthiness of a number: `0` and `NaN` are falsy. -/
def truthy : JSNum → Bool
  | num q => q ≠ 0
  | nan => false
  | _ => true

end JSNum

/-! ## Data model (`lib/types.ts`, plus `timeframe` from its use in
`trading.ts`) -/

/-- A candle (`Kline` in `types.ts`).  The `open` field is renamed
`openPrice` because `open` is a Lean keyword. -/
structure Kline where
  time : ℚ
  openPrice : ℚ
  high : ℚ
  low : ℚ
  close : ℚ
  volume : ℚ
deriving DecidableEq, Repr

/-- `IndicatorValue` from `types.ts` (used by EMA/SMA/MACD, whose arithmetic
never divides by zero, so plain `ℚ` is a faithful value model). -/
structure IndicatorValue where
  time : ℚ
  value : ℚ
deriving DecidableEq, Repr

/-- An RSI output point: same shape as `IndicatorValue`, but the value is a
`JSNum` because the RSI formula divides by the smoothed average loss, which
can be zero. -/
structure RSIValue where
  time : ℚ
  value : JSNum
deriving DecidableEq, Repr

/-- One entry of the list returned by `calculateMACD`. -/
structure MACDPoint where
  time : ℚ
  macd : ℚ
  signal : ℚ
  histogram : ℚ
deriving DecidableEq, Repr

/-- `'buy' | 'sell'`. -/
inductive SignalType where
  | buy
  | sell
deriving DecidableEq, Repr

/-- `TradingSignal` from `types.ts` (`reason` is optional there). -/
structure TradingSignal where
  time : ℚ
  type : SignalType
  price : ℚ
  reason : Option String
deriving DecidableEq, Repr

/-- `EMAPeriod = 7 | 25 | 99`. -/
inductive EMAPeriodV where
  | p7
  | p25
  | p99
deriving DecidableEq, Repr

/-- Numeric value of an `EMAPeriod`. -/
def EMAPeriodV.toNat : EMAPeriodV → ℕ
  | .p7 => 7
  | .p25 => 25
  | .p99 => 99

/-- `RSIPeriod = 14 | 21`. -/
inductive RSIPeriodV where
  | p14
  | p21
deriving DecidableEq, Repr

/-- Numeric value of an `RSIPeriod`. -/
def RSIPeriodV.toNat : RSIPeriodV → ℕ
  | .p14 => 14
  | .p21 => 21

/-- `StrategyType` from `types.ts`. -/
inductive StrategyType where
  | ema_cross
  | rsi_oversold
  | macd_cross
  | multi
deriving DecidableEq, Repr

/-- `TimeframeType`, modelled from `filterDataByTimeframe` in `trading.ts`:
`"1m" | "3m" | "6m" | "all"`. -/
inductive TimeframeType where
  | m1
  | m3
  | m6
  | all
deriving DecidableEq, Repr

/-- `StrategyParams` from `types.ts`; optional fields become `Option`.
The `timeframe` field is modelled from its use in `generateSignals`. -/
structure StrategyParams where
  type : StrategyType
  fastEma : Option EMAPeriodV
  slowEma : Option EMAPeriodV
  rsiPeriod : Option RSIPeriodV
  rsiOverbought : Option ℚ
  rsiOversold : Option ℚ
  useVolume : Option Bool
  volumeThreshold : Option ℚ
  timeframe : TimeframeType
deriving DecidableEq, Repr

/-- Default candle used for (never-reached) out-of-bounds `getD` reads. -/
def dfltKline : Kline := ⟨0, 0, 0, 0, 0, 0⟩

/-- Default indicator point for `getD`. -/
def dfltIV : IndicatorValue := ⟨0, 0⟩

/-- Default RSI point for `getD`. -/
def dfltRSI : RSIValue := ⟨0, JSNum.num 0⟩

/-- Default MACD point for `getD`. -/
def dfltMACD : MACDPoint := ⟨0, 0, 0, 0⟩

/-! ## IndicatorEngine (`trading.ts` lines 27–114) -/

/-- The mutable-`ema` loop inside `calculateEMA`: starting from accumulator
`ema`, each candle contributes `close*k + ema*(1-k)` and that value is both
emitted and carried forward. -/
def emaAux (k : ℚ) : ℚ → List Kline → List IndicatorValue
  | _, [] => []
  | ema, c :: rest =>
      let e := c.close * k + ema * (1 - k)
      ⟨c.time, e⟩ :: emaAux k e rest

/-- `calculateEMA(data, period)`: guard `data.length < period → []`; seed the
accumulator with `data[0].close`, then map the recurrence over every candle
(the output has one point per input candle).  For empty `data` the JS `map`
also returns `[]`. -/
def calculateEMA (data : List Kline) (period : ℕ) : List IndicatorValue :=
  if data.length < period then []
  else
    match data with
    | [] => []
    | c0 :: _ => emaAux (2 / ((period : ℚ) + 1)) c0.close data

/-- `calculateSMA(data, period)`: for `i` from `period-1` to `length-1`, the
mean of `close` over the window `slice(i-period+1, i+1)`. -/
def calculateSMA (data : List Kline) (period : ℕ) : List IndicatorValue :=
  if data.length < period then []
  else
    (List.range' (period - 1) (data.length - (period - 1))).map fun i =>
      let sum := (((data.drop (i + 1 - period)).take period).map Kline.close).foldl (· + ·) 0
      ⟨(data.getD i dfltKline).time, sum / (period : ℚ)⟩

/-- The RSI value formula `100 - 100/(1 + avgGain/avgLoss)`, computed with
JavaScript number semantics (`avgLoss = 0` makes the inner quotient
`Infinity` or, when `avgGain = 0` too, `NaN`). -/
def rsiVal (avgGain avgLoss : ℚ) : JSNum :=
  JSNum.sub (.num 100)
    (JSNum.div (.num 100) (JSNum.add (.num 1) (JSNum.div (.num avgGain) (.num avgLoss))))

/-- The Wilder-smoothing loop of `calculateRSI`: consumes triples
`(gains[i], losses[i], data[i+1].time)` for `i = period, …, length-2`,
updating the running averages and emitting one point per step. -/
def rsiAux (period : ℕ) : ℚ → ℚ → List (ℚ × ℚ × ℚ) → List RSIValue
  | _, _, [] => []
  | avgGain, avgLoss, (g, l, t) :: rest =>
      let avgGain' := (avgGain * ((period : ℚ) - 1) + g) / (period : ℚ)
      let avgLoss' := (avgLoss * ((period : ℚ) - 1) + l) / (period : ℚ)
      ⟨t, rsiVal avgGain' avgLoss'⟩ :: rsiAux period avgGain' avgLoss' rest

/-- `calculateRSI(data, period)` from `trading.ts` lines 42–74: per-bar
gains/losses, seed averages as simple means of the first `period` entries,
first point at `data[period].time`, then Wilder smoothing. -/
def calculateRSI (data : List Kline) (period : ℕ) : List RSIValue :=
  if data.length < period + 1 then []
  else
    let closes := data.map Kline.close
    let changes := (closes.zip closes.tail).map fun p => p.2 - p.1
    let gains := changes.map fun c => max 0 c
    let losses := changes.map fun c => max 0 (-c)
    let avgGain := ((gains.take period).foldl (· + ·) 0) / (period : ℚ)
    let avgLoss := ((losses.take period).foldl (· + ·) 0) / (period : ℚ)
    match (data.drop period).map Kline.time with
    | [] => []
    | t0 :: restTimes =>
        ⟨t0, rsiVal avgGain avgLoss⟩ ::
          rsiAux period avgGain avgLoss
            ((gains.drop period).zip ((losses.drop period).zip restTimes))

/-- The mutable-`signal` loop inside `calculateMACD`: the signal line is a
9-EMA of the MACD line, seeded with `macdLine[0]`. -/
def macdSignalAux (k : ℚ) : ℚ → List IndicatorValue → List MACDPoint
  | _, [] => []
  | sig, m :: rest =>
      let s := m.value * k + sig * (1 - k)
      ⟨m.time, m.value, s, m.value - s⟩ :: macdSignalAux k s rest

/-- `calculateMACD(data)` from `trading.ts` lines 76–98: guard
`length < 26 → []`; `macdLine[i] = fastEMA[i] - slowEMA[i]` (both EMA lists
have full input length, so the index-map is a `zip`); then the signal/histogram
loop with `k = 2/(9+1)`. -/
def calculateMACD (data : List Kline) : List MACDPoint :=
  if data.length < 26 then []
  else
    let fastEMA := calculateEMA data 12
    let slowEMA := calculateEMA data 26
    let macdLine := (fastEMA.zip slowEMA).map fun p => (⟨p.1.time, p.1.value - p.2.value⟩ : IndicatorValue)
    match macdLine with
    | [] => []
    | m0 :: _ => macdSignalAux (2 / (9 + 1)) m0.value macdLine

/-! ## SignalGenerator (`trading.ts` lines 116–287) -/

/-- `isVolumeSurge(candle, avgVolume, threshold)`. -/
def isVolumeSurge (candle : Kline) (avgVolume threshold : ℚ) : Bool :=
  candle.volume > avgVolume * threshold

/-- `filterDataByTimeframe(data, timeframe)`: keeps candles with
`now - time < limit`, where `now = Date.now()/1000` is modelled as the
explicit parameter `now` and `limit` is 30/90/180 days in seconds. -/
def filterDataByTimeframe (now : ℚ) (data : List Kline) : TimeframeType → List Kline
  | .all => data
  | .m1 => data.filter fun c => now - c.time < 30 * 24 * 60 * 60
  | .m3 => data.filter fun c => now - c.time < 90 * 24 * 60 * 60
  | .m6 => data.filter fun c => now - c.time < 180 * 24 * 60 * 60

/-- `generateEMASignals(data, fastPeriod, slowPeriod)` from lines 134–170.
The `!fastEma[i] || …` guard is the element-existence check of the source;
the buy/sell branches are an `if / else if`. -/
def generateEMASignals (data : List Kline) (fastPeriod slowPeriod : ℕ) : List TradingSignal :=
  if data.length < max (max fastPeriod slowPeriod) 99 then []
  else
    let fastEma := calculateEMA data fastPeriod
    let slowEma := calculateEMA data slowPeriod
    let trendEma := calculateEMA data 99
    (List.range' 1 (data.length - 1)).flatMap fun i =>
      if i < fastEma.length ∧ i < slowEma.length ∧ i < trendEma.length then
        let di := data.getD i dfltKline
        let trend := di.close > (trendEma.getD i dfltIV).value
        let prevFast := (fastEma.getD (i - 1) dfltIV).value
        let prevSlow := (slowEma.getD (i - 1) dfltIV).value
        let currFast := (fastEma.getD i dfltIV).value
        let currSlow := (slowEma.getD i dfltIV).value
        let priceConfirmation := if trend then di.close > di.openPrice else di.close < di.openPrice
        if prevFast ≤ prevSlow ∧ currFast > currSlow ∧ trend ∧ priceConfirmation then
          [⟨di.time, .buy, di.close, some "EMA cross above with trend confirmation"⟩]
        else if prevFast ≥ prevSlow ∧ currFast < currSlow ∧ ¬trend ∧ priceConfirmation then
          [⟨di.time, .sell, di.close, some "EMA cross below with trend confirmation"⟩]
        else []
      else []

/-- The loop body of `generateRSISignals` at index `i`: the
`!rsi || !prevRsi || !sma20[i]` guard (number truthiness for the RSI values;
`sma20[i]` always exists inside the loop bound), then two independent `if`s
that can emit a buy and/or a sell. -/
def rsiSignalsBody (data : List Kline) (rsiValues : List RSIValue) (i : ℕ) : List TradingSignal :=
  let rsi := (rsiValues.getD i dfltRSI).value
  let prevRsi := (rsiValues.getD (i - 1) dfltRSI).value
  if rsi.truthy && prevRsi.truthy then
    let di := data.getD i dfltKline
    let dprev := data.getD (i - 1) dfltKline
    (if rsi.blt (.num 30) && prevRsi.blt (.num 30) && decide (di.low < dprev.low)
        && rsi.bgt prevRsi then
      [⟨di.time, .buy, di.close, some "RSI bullish divergence"⟩]
    else []) ++
    (if rsi.bgt (.num 70) && prevRsi.bgt (.num 70) && decide (di.high > dprev.high)
        && rsi.blt prevRsi then
      [⟨di.time, .sell, di.close, some "RSI bearish divergence"⟩]
    else [])
  else []

/-- `generateRSISignals(data, period)` from lines 172–208: note that the loop
reads `rsiValues[i]` and `rsiValues[i-1]` directly — the raw RSI-array
indices, which correspond to candles `i + period` and `i + period - 1`, not
to candles `i` and `i-1`.  The SMA-20 trend value is computed in the source
but never used to gate emission. -/
def generateRSISignals (data : List Kline) (period : ℕ) : List TradingSignal :=
  if data.length < period + 20 then []
  else
    let rsiValues := calculateRSI data period
    let sma20 := calculateSMA data 20
    let startIndex := max 2 period
    let bound := min (min rsiValues.length data.length) sma20.length
    (List.range' startIndex (bound - startIndex)).flatMap fun i =>
      rsiSignalsBody data rsiValues i

/-- `generateMACDSignals(data)` from lines 210–242: two independent `if`s per
index; the `!prevMACD || !currMACD` guard is element existence, satisfied
inside the loop bound. -/
def generateMACDSignals (data : List Kline) : List TradingSignal :=
  if data.length < 26 then []
  else
    let macdData := calculateMACD data
    (List.range' 1 (macdData.length - 1)).flatMap fun i =>
      let prev := macdData.getD (i - 1) dfltMACD
      let curr := macdData.getD i dfltMACD
      let di := data.getD i dfltKline
      (if prev.macd ≤ prev.signal ∧ curr.macd > curr.signal ∧ curr.histogram > 0 then
        [⟨di.time, .buy, di.close, some "MACD crossed above signal line with positive momentum"⟩]
      else []) ++
      (if prev.macd ≥ prev.signal ∧ curr.macd < curr.signal ∧ curr.histogram < 0 then
        [⟨di.time, .sell, di.close, some "MACD crossed below signal line with negative momentum"⟩]
      else [])

/-- JavaScript truthiness of the optional `useVolume` flag. -/
def useVolumeOn (s : StrategyParams) : Bool := s.useVolume.getD false

/-- `strategy.volumeThreshold || 1.5` (`0` is falsy in JavaScript). -/
def volumeThresholdOf (s : StrategyParams) : ℚ :=
  match s.volumeThreshold with
  | some v => if v = 0 then 3 / 2 else v
  | none => 3 / 2

/-- The pre-validation signal set of `generateSignals` (lines 250–269): the
union of the detectors enabled by `strategy.type`, in EMA/RSI/MACD order.
The nested `if (strategy.fastEma && strategy.slowEma)` / `if
(strategy.rsiPeriod)` checks are optional-field truthiness (the legal numeric
values 7/25/99 and 14/21 are all truthy). -/
def rawSignals (filteredData : List Kline) (strategy : StrategyParams) : List TradingSignal :=
  (if strategy.type = .ema_cross ∨ strategy.type = .multi then
    match strategy.fastEma, strategy.slowEma with
    | some f, some s => generateEMASignals filteredData f.toNat s.toNat
    | _, _ => []
  else []) ++
  (if strategy.type = .rsi_oversold ∨ strategy.type = .multi then
    match strategy.rsiPeriod with
    | some r => generateRSISignals filteredData r.toNat
    | none => []
  else []) ++
  (if strategy.type = .macd_cross ∨ strategy.type = .multi then
    generateMACDSignals filteredData
  else [])

/-- Stable insertion of a signal into a time-sorted list (before the first
strictly later signal). -/
def insertByTime (s : TradingSignal) : List TradingSignal → List TradingSignal
  | [] => [s]
  | t :: ts => if s.time ≤ t.time then s :: t :: ts else t :: insertByTime s ts

/-- `signals.sort((a, b) => a.time - b.time)`: JavaScript's stable sort with
an ascending-time comparator, modelled as stable insertion sort. -/
def sortByTime : List TradingSignal → List TradingSignal
  | [] => []
  | s :: ss => insertByTime s (sortByTime ss)

/-- The validation filter used both in `generateSignals` (lines 279–284) and
in `calculateTradingStats` (lines 296–299): keep element 0 only if it is a
buy; keep element `i > 0` only if its type differs from element `i-1` of the
*input* list (the JS callback reads `signals[index - 1]`, i.e. the
predecessor in the array being filtered, not the previously retained
signal).  Pairing each tail element with its predecessor expresses exactly
that index access. -/
def jsValidationFilter (l : List TradingSignal) : List TradingSignal :=
  match l with
  | [] => []
  | s0 :: rest =>
      (if s0.type = .buy then [s0] else []) ++
        (rest.zip l).filterMap fun p => if p.1.type ≠ p.2.type then some p.1 else none

/-- `generateSignals(data, strategy)` from lines 244–287, with the ambient
clock `now` explicit.  Note the early `return` of the volume-filter branch:
when `useVolume` is truthy and at least one signal exists, the
volume-filtered signals are returned *without* the sort/alternation
validation pass. -/
def generateSignals (now : ℚ) (data : List Kline) (strategy : StrategyParams) : List TradingSignal :=
  if data.length < 2 then []
  else
    let filteredData := filterDataByTimeframe now data strategy.timeframe
    if filteredData.length < 2 then []
    else
      let signals := rawSignals filteredData strategy
      if useVolumeOn strategy && decide (0 < signals.length) then
        let avgVolume := ((filteredData.map Kline.volume).foldl (· + ·) 0) / (filteredData.length : ℚ)
        signals.filter fun signal =>
          match filteredData.find? fun d => d.time = signal.time with
          | some candle => isVolumeSurge candle avgVolume (volumeThresholdOf strategy)
          | none => false
      else
        jsValidationFilter (sortByTime signals)

/-! ## Backtester (`trading.ts` lines 289–359) -/

/-- `TradeResult` from `trading.ts` lines 3–14. -/
structure TradeResult where
  entryPrice : ℚ
  exitPrice : ℚ
  profit : ℚ
  profitPercentage : ℚ
  capitalAfterTrade : ℚ
  quantity : ℚ
  entryTime : ℚ
  exitTime : ℚ
  entryReason : Option String
  exitReason : Option String
deriving DecidableEq, Repr

/-- `TradingStats` from `trading.ts` lines 16–25 plus the two buy-and-hold
fields added by the `return` (lines 356–357).  The three fields whose
source expressions can divide by zero are `JSNum`-valued. -/
structure TradingStats where
  totalProfit : ℚ
  profitPercentage : JSNum
  winRate : ℚ
  totalTrades : ℕ
  winningTrades : ℕ
  maxDrawdown : ℚ
  finalCapital : ℚ
  trades : List TradeResult
  holdProfitPercentage : JSNum
  holdFinalCapital : JSNum
deriving DecidableEq, Repr

/-- The mutable state of the trade loop in `calculateTradingStats`. -/
structure LoopState where
  capital : ℚ
  peak : ℚ
  maxDD : ℚ
  winning : ℕ
deriving DecidableEq, Repr

/-- The `for (i = 0; i < length - 1; i += 2)` loop of `calculateTradingStats`
(lines 301–336): signals are consumed two at a time; a pair that is not
(buy, sell) is skipped without touching the state. -/
def tradeLoop (st : LoopState) : List TradingSignal → LoopState × List TradeResult
  | b :: s :: rest =>
      if b.type = .buy ∧ s.type = .sell then
        let quantity := st.capital / b.price
        let profit := quantity * (s.price - b.price)
        let pct := (s.price - b.price) / b.price * 100
        let capital' := st.capital + profit
        let peak' := if capital' > st.peak then capital' else st.peak
        let maxDD' := if capital' > st.peak then st.maxDD
          else max st.maxDD ((st.peak - capital') / st.peak * 100)
        let winning' := if profit > 0 then st.winning + 1 else st.winning
        let r := tradeLoop ⟨capital', peak', maxDD', winning'⟩ rest
        (r.1, ⟨b.price, s.price, profit, pct, capital', quantity,
               b.time, s.time, b.reason, s.reason⟩ :: r.2)
      else
        tradeLoop st rest
  | _ => (st, [])

/-- `calculateTradingStats(signals, initialCapital = 10000)` from lines
289–359.  `signals[0]?.price || 0` is modelled as "head price or 0": for a
present signal, `|| 0` changes the value only when the price is already `0`.
`profitPercentage`, `holdProfitPercentage`, and `holdFinalCapital` keep the
source's division structure in `JSNum`, since the divisors
(`initialCapital`, `firstPrice`) can be zero. -/
def calculateTradingStats (signals : List TradingSignal) (initialCapital : ℚ) : TradingStats :=
  let validSignals := jsValidationFilter signals
  let res := tradeLoop ⟨initialCapital, initialCapital, 0, 0⟩ validSignals
  let currentCapital := res.1.capital
  let trades := res.2
  let totalProfit := currentCapital - initialCapital
  let profitPercentage :=
    JSNum.mul (JSNum.div (.num (currentCapital - initialCapital)) (.num initialCapital)) (.num 100)
  let firstPrice := match signals.head? with
    | some s => s.price
    | none => 0
  let lastPrice := match signals.getLast? with
    | some s => s.price
    | none => 0
  let holdProfitPercentage :=
    JSNum.mul (JSNum.div (.num (lastPrice - firstPrice)) (.num firstPrice)) (.num 100)
  let holdFinalCapital :=
    JSNum.mul (.num initialCapital) (JSNum.add (.num 1) (JSNum.div holdProfitPercentage (.num 100)))
  { totalProfit := totalProfit
    profitPercentage := profitPercentage
    winRate := if trades.length > 0 then ((res.1.winning : ℚ) / (trades.length : ℚ)) * 100 else 0
    totalTrades := trades.length
    winningTrades := res.1.winning
    maxDrawdown := res.1.maxDD
    finalCapital := currentCapital
    trades := trades
    holdProfitPercentage := holdProfitPercentage
    holdFinalCapital := holdFinalCapital }

/-! ## Properties from the specification -/

/-- `types[i] ≠ types[i-1]` along a list, relative to the type `t` of the
previous signal. -/
def chainAlt : SignalType → List TradingSignal → Bool
  | _, [] => true
  | t, s :: rest => decide (s.type ≠ t) && chainAlt s.type rest

/-- The specification's alternation property: the first signal (if any) is a
buy, and every signal differs in type from its predecessor. -/
def altFromBuy : List TradingSignal → Bool
  | [] => true
  | s :: rest => (s.type == .buy) && chainAlt s.type rest

/-- The specification's per-trade accounting, read off a trade list:
`quantity = capital_before / entryPrice`,
`profit = quantity * (exitPrice - entryPrice)`,
`profitPercentage = (exitPrice - entryPrice) / entryPrice * 100`, and
`capitalAfterTrade = capital_before + profit`, where `capital_before` is
`c` for the first trade and the previous `capitalAfterTrade` thereafter. -/
def tradesChained (c : ℚ) : List TradeResult → Prop
  | [] => True
  | t :: ts =>
      t.quantity = c / t.entryPrice ∧
      t.profit = t.quantity * (t.exitPrice - t.entryPrice) ∧
      t.profitPercentage = (t.exitPrice - t.entryPrice) / t.entryPrice * 100 ∧
      t.capitalAfterTrade = c + t.profit ∧
      tradesChained t.capitalAfterTrade ts

/-- One step of the specification's drawdown recurrence over the sequence of
post-trade capitals: the peak is the running maximum of capital, and the
drawdown at each close is `(peak - capital) / peak * 100`. -/
def specDDStep (acc : ℚ × ℚ) (cap : ℚ) : ℚ × ℚ :=
  let peak := max acc.1 cap
  (peak, max acc.2 ((peak - cap) / peak * 100))

/-- The specification's `maxDrawdown`: the running maximum, over all trade
closes in order, of the percentage decline from the running peak capital
(starting from the initial capital, `0` if capital never falls below its
peak). -/
def specMaxDrawdown (initialCapital : ℚ) (caps : List ℚ) : ℚ :=
  (caps.foldl specDDStep (initialCapital, 0)).2

/-- Claim C5's buy condition at candle `i`, with the RSI series entry
*index-aligned* to candle `i` (warm-up offset accounted for, i.e. candle `j`
gets `rsiValues[j - period]`), exactly as the claim words it:
`RSI[i] < 30 ∧ RSI[i-1] < 30 ∧ low[i] < low[i-1] ∧ RSI[i] > RSI[i-1]`. -/
def c5AlignedBuyCond (data : List Kline) (period i : ℕ) : Bool :=
  let rsiValues := calculateRSI data period
  let rsiAt := fun j => (rsiValues.getD (j - period) dfltRSI).value
  (rsiAt i).blt (.num 30) && (rsiAt (i - 1)).blt (.num 30)
    && decide ((data.getD i dfltKline).low < (data.getD (i - 1) dfltKline).low)
    && (rsiAt i).bgt (rsiAt (i - 1))

/-- The buy signal the RSI detector emits for candle `i`. -/
def mkRSIBuySignal (data : List Kline) (i : ℕ) : TradingSignal :=
  ⟨(data.getD i dfltKline).time, .buy, (data.getD i dfltKline).close,
    some "RSI bullish divergence"⟩

/-- The raw-index buy condition the code actually tests at loop index `i`:
the truthiness guard on `rsiValues[i]` and `rsiValues[i-1]` plus the
threshold/divergence comparisons, with the RSI entries read at the raw array
indices `i` and `i-1` (which are the RSI values of candles `i + period` and
`i + period - 1`). -/
def rsiRawBuyCond (data : List Kline) (period i : ℕ) : Bool :=
  let rsiValues := calculateRSI data period
  let rsi := (rsiValues.getD i dfltRSI).value
  let prevRsi := (rsiValues.getD (i - 1) dfltRSI).value
  rsi.truthy && prevRsi.truthy &&
    (rsi.blt (.num 30) && prevRsi.blt (.num 30)
      && decide ((data.getD i dfltKline).low < (data.getD (i - 1) dfltKline).low)
      && rsi.bgt prevRsi)

/-- The sell signal the RSI detector emits for candle `i`. -/
def mkRSISellSignal (data : List Kline) (i : ℕ) : TradingSignal :=
  ⟨(data.getD i dfltKline).time, .sell, (data.getD i dfltKline).close,
    some "RSI bearish divergence"⟩

/-- The raw-index sell condition the code actually tests at loop index `i`
(mirror of `rsiRawBuyCond` with threshold 70). -/
def rsiRawSellCond (data : List Kline) (period i : ℕ) : Bool :=
  let rsiValues := calculateRSI data period
  let rsi := (rsiValues.getD i dfltRSI).value
  let prevRsi := (rsiValues.getD (i - 1) dfltRSI).value
  rsi.truthy && prevRsi.truthy &&
    (rsi.bgt (.num 70) && prevRsi.bgt (.num 70)
      && decide ((data.getD i dfltKline).high > (data.getD (i - 1) dfltKline).high)
      && rsi.blt prevRsi)

/-! ## Concrete inputs used by counterexamples and witnesses -/

/-- 26 candles with strictly decreasing closes `100 - i` at times `0..25`;
only the candle at time 1 has any volume.  The MACD detector emits exactly
one signal on it: a sell at time 1. -/
def c1data : List Kline :=
  (List.range 26).map fun (i : ℕ) =>
    { time := (i : ℚ), openPrice := 0, high := 0, low := 0,
      close := 100 - (i : ℚ), volume := if i = 1 then 1000 else 0 }

/-- A MACD strategy with the volume filter enabled. -/
def c1params : StrategyParams :=
  { type := .macd_cross, fastEma := none, slowEma := none, rsiPeriod := none,
    rsiOverbought := none, rsiOversold := none, useVolume := some true,
    volumeThreshold := some (3 / 2), timeframe := .all }

/-- The same strategy with the volume filter disabled. -/
def c1paramsNoVol : StrategyParams :=
  { c1params with useVolume := none }

/-- The same volume-filtered MACD strategy restricted to the last 30 days. -/
def c2params : StrategyParams :=
  { c1params with timeframe := .m1 }

/-- A single candle (fewer than any legal EMA period). -/
def c3single : List Kline :=
  [⟨0, 0, 0, 0, 5, 0⟩]

/-- A completely flat series: 15 candles, constant close 100. -/
def c4flat : List Kline :=
  (List.range 15).map fun (i : ℕ) =>
    { time := (i : ℚ), openPrice := 0, high := 0, low := 0, close := 100, volume := 0 }

/-- Closes for the C5 counterexample: rise by 1 up to candle 14, fall by 3 up
to candle 27, then a half-point bounce held flat. -/
def c5close (i : ℕ) : ℚ :=
  if i ≤ 14 then 100 + i
  else if i ≤ 27 then 114 - 3 * ((i : ℚ) - 14)
  else 151 / 2

/-- 34 candles (the minimum for the RSI detector with period 14): early
rally, then a sell-off that puts the *late* RSI values below 30 while the RSI
aligned to candles 13/14 is 100; candle 14 makes a lower low than candle
13. -/
def c5data : List Kline :=
  (List.range 34).map fun (i : ℕ) =>
    { time := (i : ℚ), openPrice := 0, high := 0,
      low := if i = 13 then 2 else if i = 14 then 1 else 0,
      close := c5close i, volume := 0 }

/-- 26 flat candles, enough history for MACD. -/
def c6data : List Kline :=
  (List.range 26).map fun (i : ℕ) =>
    { time := (i : ℚ), openPrice := 0, high := 0, low := 0, close := 1, volume := 0 }

/-- Scenario C of the specification: one round-trip trade. -/
def scenC : List TradingSignal :=
  [⟨0, .buy, 100, none⟩, ⟨1, .sell, 110, none⟩]

/-- Scenario D of the specification: two losing trades. -/
def scenD : List TradingSignal :=
  [⟨0, .buy, 100, none⟩, ⟨1, .sell, 90, none⟩, ⟨2, .buy, 90, none⟩, ⟨3, .sell, 70, none⟩]

/-- A non-alternating signal list (two sells in a row): the validation
filter keeps the alternating substream `[buy, sell]`, so the backtester
still produces one trade. -/
def c9nonAlt : List TradingSignal :=
  [⟨0, .buy, 100, none⟩, ⟨1, .sell, 110, none⟩, ⟨2, .sell, 105, none⟩]

/-- Periods 7 candles of distinct closes, for the C3 witness. -/
def c3week : List Kline :=
  (List.range 7).map fun (i : ℕ) =>
    { time := (i : ℚ), openPrice := 0, high := 0, low := 0, close := 10 + (i : ℚ), volume := 0 }

/-- Recursive form of the predecessor-comparison filter: keep each element
whose type differs from the type of the element immediately before it in the
input list. -/
def dedupPrev (prev : TradingSignal) : List TradingSignal → List TradingSignal
  | [] => []
  | s :: rest => (if s.type ≠ prev.type then [s] else []) ++ dedupPrev s rest

/-! ## Helper lemmas -/

attribute [local semireducible] Rat.add Rat.sub Rat.mul Rat.inv

theorem emaAux_length (l : List Kline) : ∀ k e, (emaAux k e l).length = l.length := by
  induction l with
  | nil => intro k e; rfl
  | cons c rest ih => intro k e; simp [emaAux, ih]

theorem calculateEMA_length (data : List Kline) (period : ℕ)
    (h2 : period ≤ data.length) (hne : data ≠ []) :
    (calculateEMA data period).length = data.length := by
  unfold calculateEMA
  rw [if_neg (by omega)]
  match data, hne with
  | c :: rest, _ => exact emaAux_length _ _ _

theorem macdSignalAux_length (l : List IndicatorValue) :
    ∀ k s, (macdSignalAux k s l).length = l.length := by
  induction l with
  | nil => intro k s; rfl
  | cons m rest ih => intro k s; simp [macdSignalAux, ih]

theorem zip_filterMap_eq_dedupPrev (rest : List TradingSignal) :
    ∀ prev, ((rest.zip (prev :: rest)).filterMap fun p =>
        if p.1.type ≠ p.2.type then some p.1 else none) = dedupPrev prev rest := by
  induction rest with
  | nil => intro prev; rfl
  | cons s ss ih =>
      intro prev
      by_cases h : s.type = prev.type
      · simp only [List.zip_cons_cons, List.filterMap_cons, dedupPrev,
          if_neg (not_not_intro h)]
        simpa using ih s
      · simp only [List.zip_cons_cons, List.filterMap_cons, dedupPrev, if_pos h]
        simpa using ih s

theorem chainAlt_dedupPrev (rest : List TradingSignal) :
    ∀ prev, chainAlt prev.type (dedupPrev prev rest) = true := by
  induction rest with
  | nil => intro prev; rfl
  | cons s ss ih =>
      intro prev
      by_cases h : s.type = prev.type
      · simp only [dedupPrev, if_neg (not_not_intro h), List.nil_append]
        rw [← h]
        exact ih s
      · simp only [dedupPrev, if_pos h, List.singleton_append, chainAlt,
          Bool.and_eq_true, decide_eq_true_eq]
        exact ⟨h, ih s⟩

theorem altFromBuy_dedupPrev (rest : List TradingSignal) :
    ∀ prev, prev.type = .sell → altFromBuy (dedupPrev prev rest) = true := by
  induction rest with
  | nil => intro prev _; rfl
  | cons s ss ih =>
      intro prev hprev
      by_cases h : s.type = prev.type
      · simp only [dedupPrev, if_neg (not_not_intro h), List.nil_append]
        exact ih s (h.trans hprev)
      · have hbuy : s.type = .buy := by
          cases hs : s.type
          · rfl
          · exact absurd (hs.trans hprev.symm) h
        simp only [dedupPrev, if_pos h, List.singleton_append, altFromBuy,
          Bool.and_eq_true]
        exact ⟨by simp [hbuy], chainAlt_dedupPrev ss s⟩

theorem altFromBuy_jsValidationFilter (l : List TradingSignal) :
    altFromBuy (jsValidationFilter l) = true := by
  match l with
  | [] => rfl
  | s0 :: rest =>
      show altFromBuy ((if s0.type = .buy then [s0] else []) ++
        (rest.zip (s0 :: rest)).filterMap fun p =>
          if p.1.type ≠ p.2.type then some p.1 else none) = true
      rw [zip_filterMap_eq_dedupPrev rest s0]
      by_cases h : s0.type = .buy
      · simp only [if_pos h, List.singleton_append, altFromBuy, Bool.and_eq_true]
        exact ⟨by simp [h], chainAlt_dedupPrev rest s0⟩
      · have hsell : s0.type = .sell := by
          cases hs : s0.type
          · exact absurd hs h
          · rfl
        simp only [if_neg h, List.nil_append]
        exact altFromBuy_dedupPrev rest s0 hsell

/-! ## Claim C1 -/

/-- C1 (counterexample): with the volume filter enabled, `generateSignals`
can return a list whose first signal is a sell — on 26 strictly falling
candles where only candle 1 has volume, the MACD strategy with
`useVolume = true` returns exactly one sell signal, so the output is not a
strict alternation starting with `buy`. -/
theorem c1_counterexample : altFromBuy (generateSignals 0 c1data c1params) = false := by
  decide

/-- C1 (amended): whenever the volume filter is not enabled, the signal list
returned by `generateSignals` is a strict alternation of types starting with
`buy`.  (When `useVolume` is truthy and at least one raw signal exists, the
function instead returns the volume-filtered signals without the validation
pass, which rules the original claim out.) -/
theorem c1_amended (now : ℚ) (data : List Kline) (strategy : StrategyParams)
    (h : useVolumeOn strategy = false) :
    altFromBuy (generateSignals now data strategy) = true := by
  unfold generateSignals
  split
  · rfl
  · simp only [h, Bool.false_and, Bool.false_eq_true, if_false]
    split
    · rfl
    · exact altFromBuy_jsValidationFilter _

/-- C1 witness: the amended theorem applied to a concrete volume-free
strategy. -/
theorem c1_amended_witness :
    useVolumeOn c1paramsNoVol = false ∧
      altFromBuy (generateSignals 0 c1data c1paramsNoVol) = true :=
  ⟨rfl, c1_amended 0 c1data c1paramsNoVol rfl⟩

/-! ## Claim C2 -/

/-- C2 (counterexample): with timeframe `"1m"`, the output of
`generateSignals` depends on the ambient clock (`Date.now()`): the same
26-candle input yields a sell signal when the clock reads 100 seconds and
the empty list when it reads 10^8 seconds. -/
theorem c2_counterexample :
    generateSignals 100 c1data c2params ≠ generateSignals 100000000 c1data c2params := by
  decide

/-- C2 (amended): for timeframe `"all"`, `generateSignals` is independent of
the ambient clock — two runs at arbitrary clock readings coincide.  (With
clock value fixed, every run is a pure function of candles and
configuration; but for `"1m"/"3m"/"6m"` the output genuinely depends on
`Date.now()`.) -/
theorem c2_amended (data : List Kline) (strategy : StrategyParams)
    (h : strategy.timeframe = .all) (now₁ now₂ : ℚ) :
    generateSignals now₁ data strategy = generateSignals now₂ data strategy := by
  unfold generateSignals
  rw [h]
  rfl

/-- C2 witness: the amended theorem at a concrete "all"-timeframe strategy
and two different clock values. -/
theorem c2_amended_witness :
    c1paramsNoVol.timeframe = .all ∧
      generateSignals 5 c1data c1paramsNoVol = generateSignals 77 c1data c1paramsNoVol :=
  ⟨rfl, c2_amended c1data c1paramsNoVol rfl 5 77⟩

/-! ## Claim C3 -/

/-- C3 (counterexample): `calculateEMA` does not return one point per candle
for every series of length ≥ 1: a single candle with EMA period 7 yields the
empty list, not a length-1 list. -/
theorem c3_counterexample : (calculateEMA c3single 7).length ≠ c3single.length := by
  decide

/-- C3 (amended): for every candle series with at least `period` candles
(the code returns `[]` below that), `calculateEMA` returns exactly one point
per input candle, and the first output value equals the first candle's close
price. -/
theorem c3_amended (data : List Kline) (period : ℕ)
    (h1 : 1 ≤ period) (h2 : period ≤ data.length) :
    (calculateEMA data period).length = data.length ∧
      (calculateEMA data period).head?.map IndicatorValue.value =
        data.head?.map Kline.close := by
  match data, h2 with
  | c :: rest, h2 =>
      refine ⟨calculateEMA_length _ _ h2 (by simp), ?_⟩
      unfold calculateEMA
      rw [if_neg (by omega)]
      show some ((emaAux _ c.close (c :: rest)).head?.getD dfltIV).value = some c.close
      simp only [emaAux, List.head?_cons, Option.getD_some]
      congr 1
      ring
  | [], h2 =>
      exact absurd (h1.trans h2) (by decide)

/-- C3 witness: the amended theorem on 7 candles with period 7. -/
theorem c3_amended_witness :
    (1 ≤ 7 ∧ 7 ≤ c3week.length) ∧
      ((calculateEMA c3week 7).length = c3week.length ∧
        (calculateEMA c3week 7).head?.map IndicatorValue.value =
          c3week.head?.map Kline.close) :=
  ⟨⟨by decide, by decide⟩, c3_amended c3week 7 (by decide) (by decide)⟩

/-! ## Claim C6 -/

/-- C6 (counterexample): for 26 candles, `calculateMACD` returns 26 points,
not `26 - 26 = 0` — there is no warm-up trim, because `calculateEMA` already
returns one point per input candle. -/
theorem c6_counterexample : (calculateMACD c6data).length ≠ c6data.length - 26 := by
  decide

/-- C6 (amended): `calculateMACD` returns the empty list for fewer than 26
candles (never partial output), and for `n ≥ 26` candles it returns exactly
`n` points — aligned index-for-index with the whole candle series, not with
a suffix shortened by a 26-bar warm-up offset. -/
theorem c6_amended (data : List Kline) :
    (data.length < 26 → calculateMACD data = []) ∧
      (26 ≤ data.length → (calculateMACD data).length = data.length) := by
  constructor
  · intro h
    unfold calculateMACD
    rw [if_pos h]
  · intro h
    unfold calculateMACD
    rw [if_neg (by omega)]
    have hne : data ≠ [] := by
      intro he
      rw [he] at h
      simp at h
    have hfast : (calculateEMA data 12).length = data.length :=
      calculateEMA_length _ _ (by omega) hne
    have hslow : (calculateEMA data 26).length = data.length :=
      calculateEMA_length _ _ (by omega) hne
    have hzip : (((calculateEMA data 12).zip (calculateEMA data 26)).map fun p =>
        (⟨p.1.time, p.1.value - p.2.value⟩ : IndicatorValue)).length = data.length := by
      rw [List.length_map, List.length_zip, hfast, hslow, min_self]
    have hmain : ∀ (L : List IndicatorValue) (k : ℚ),
        (match L with
          | [] => ([] : List MACDPoint)
          | m0 :: _ => macdSignalAux k m0.value L).length = L.length := by
      intro L k
      match L with
      | [] => rfl
      | m0 :: rest => exact macdSignalAux_length _ _ _
    exact (hmain _ _).trans hzip

/-- C6 witness: the amended theorem instantiated at 26 flat candles. -/
theorem c6_amended_witness : (calculateMACD c6data).length = c6data.length :=
  (c6_amended c6data).2 (by decide)

/-! ## Claim C7 -/

theorem tradeLoop_trades_chained :
    ∀ (l : List TradingSignal) (st : LoopState),
      tradesChained st.capital (tradeLoop st l).2
  | [], _ => trivial
  | [_], _ => trivial
  | b :: s :: rest, st => by
      by_cases h : b.type = .buy ∧ s.type = .sell
      · show tradesChained st.capital (tradeLoop st (b :: s :: rest)).2
        rw [tradeLoop, if_pos h]
        refine ⟨rfl, rfl, rfl, rfl, ?_⟩
        exact tradeLoop_trades_chained rest
          ⟨st.capital + st.capital / b.price * (s.price - b.price),
            if st.capital + st.capital / b.price * (s.price - b.price) > st.peak then
              st.capital + st.capital / b.price * (s.price - b.price)
            else st.peak,
            if st.capital + st.capital / b.price * (s.price - b.price) > st.peak then st.maxDD
            else max st.maxDD
              ((st.peak - (st.capital + st.capital / b.price * (s.price - b.price))) /
                st.peak * 100),
            if st.capital / b.price * (s.price - b.price) > 0 then st.winning + 1
            else st.winning⟩
      · show tradesChained st.capital (tradeLoop st (b :: s :: rest)).2
        rw [tradeLoop, if_neg h]
        exact tradeLoop_trades_chained rest st

/-- C7: for every strictly alternating buy/sell stream (starting with buy)
with positive prices and every initial capital, the trade list produced by
`calculateTradingStats` satisfies, trade by trade:
`quantity = capital_before / entryPrice`,
`profit = quantity * (exitPrice - entryPrice)`,
`profitPercentage = (exitPrice - entryPrice) / entryPrice * 100`, and
`capitalAfterTrade = capital_before + profit`, where `capital_before` is the
initial capital for the first trade and the previous trade's
`capitalAfterTrade` thereafter (capital compounds and is never reset). -/
theorem c7_trade_accounting (signals : List TradingSignal) (initialCapital : ℚ)
    (halt : altFromBuy signals = true)
    (hpos : ∀ s ∈ signals, 0 < s.price) :
    tradesChained initialCapital (calculateTradingStats signals initialCapital).trades :=
  tradeLoop_trades_chained (jsValidationFilter signals)
    ⟨initialCapital, initialCapital, 0, 0⟩

/-- C7 witness: Scenario C (one profitable round trip from capital 1000). -/
theorem c7_witness :
    (altFromBuy scenC = true ∧ ∀ s ∈ scenC, 0 < s.price) ∧
      tradesChained 1000 (calculateTradingStats scenC 1000).trades :=
  ⟨⟨by decide, by decide⟩, c7_trade_accounting scenC 1000 (by decide) (by decide)⟩

/-! ## Claim C8 -/

theorem tradeLoop_maxDD_mono :
    ∀ (l : List TradingSignal) (st : LoopState),
      st.maxDD ≤ (tradeLoop st l).1.maxDD
  | [], _ => le_refl _
  | [_], _ => le_refl _
  | b :: s :: rest, st => by
      by_cases h : b.type = .buy ∧ s.type = .sell
      · rw [tradeLoop, if_pos h]
        refine le_trans ?_ (tradeLoop_maxDD_mono rest _)
        show st.maxDD ≤ if _ > st.peak then st.maxDD else max st.maxDD _
        split
        · exact le_refl _
        · exact le_max_left _ _
      · rw [tradeLoop, if_neg h]
        exact tradeLoop_maxDD_mono rest st

theorem tradeLoop_maxDD_spec :
    ∀ (l : List TradingSignal) (st : LoopState), 0 ≤ st.maxDD →
      (tradeLoop st l).1.maxDD =
        (((tradeLoop st l).2.map TradeResult.capitalAfterTrade).foldl specDDStep
          (st.peak, st.maxDD)).2
  | [], _, _ => rfl
  | [_], _, _ => rfl
  | b :: s :: rest, st, h0 => by
      by_cases h : b.type = .buy ∧ s.type = .sell
      · rw [tradeLoop, if_pos h]
        simp only [List.map_cons, List.foldl_cons]
        by_cases hc : st.capital + st.capital / b.price * (s.price - b.price) > st.peak
        · have hstep :
              specDDStep (st.peak, st.maxDD)
                  (st.capital + st.capital / b.price * (s.price - b.price)) =
                (st.capital + st.capital / b.price * (s.price - b.price), st.maxDD) := by
            unfold specDDStep
            rw [max_eq_right (le_of_lt hc)]
            simp [max_eq_left h0]
          rw [if_pos hc, if_pos hc] at *
          rw [hstep]
          exact tradeLoop_maxDD_spec rest _ h0
        · have hle : st.capital + st.capital / b.price * (s.price - b.price) ≤ st.peak :=
            le_of_not_lt hc
          have hstep :
              specDDStep (st.peak, st.maxDD)
                  (st.capital + st.capital / b.price * (s.price - b.price)) =
                (st.peak,
                  max st.maxDD ((st.peak -
                    (st.capital + st.capital / b.price * (s.price - b.price))) / st.peak * 100)) := by
            unfold specDDStep
            rw [max_eq_left hle]
          rw [if_neg hc, if_neg hc] at *
          rw [hstep]
          exact tradeLoop_maxDD_spec rest _ (le_trans h0 (le_max_left _ _))
      · rw [tradeLoop, if_neg h]
        exact tradeLoop_maxDD_spec rest st h0

/-- C8: in `calculateTradingStats`, `maxDrawdown` equals the maximum, over
all trade closes in time order, of `(peakCapital - capital)/peakCapital*100`
with `peakCapital` the running maximum of capital (`0` if capital never
falls below its peak) — stated as equality with the `specDDStep` fold over
the post-trade capital sequence; the running value is monotonically
non-decreasing as trades are processed; and on Scenario D
(buy@100, sell@90, buy@90, sell@70 from capital 1000) the returned
`maxDrawdown` is 30. -/
theorem c8_drawdown (signals : List TradingSignal) (initialCapital : ℚ)
    (h1 : 0 < initialCapital) (h2 : ∀ s ∈ signals, 0 < s.price) :
    (calculateTradingStats signals initialCapital).maxDrawdown =
        specMaxDrawdown initialCapital
          ((calculateTradingStats signals initialCapital).trades.map
            TradeResult.capitalAfterTrade) ∧
      (∀ (st : LoopState) (l : List TradingSignal),
        st.maxDD ≤ (tradeLoop st l).1.maxDD) ∧
      (calculateTradingStats scenD 1000).maxDrawdown = 30 := by
  refine ⟨?_, fun st l => tradeLoop_maxDD_mono l st, by decide⟩
  exact tradeLoop_maxDD_spec (jsValidationFilter signals)
    ⟨initialCapital, initialCapital, 0, 0⟩ (le_refl 0)

/-- C8 witness: the theorem applied to Scenario D. -/
theorem c8_witness :
    ((0 : ℚ) < 1000 ∧ ∀ s ∈ scenD, 0 < s.price) ∧
      ((calculateTradingStats scenD 1000).maxDrawdown =
          specMaxDrawdown 1000
            ((calculateTradingStats scenD 1000).trades.map TradeResult.capitalAfterTrade) ∧
        (∀ (st : LoopState) (l : List TradingSignal),
          st.maxDD ≤ (tradeLoop st l).1.maxDD) ∧
        (calculateTradingStats scenD 1000).maxDrawdown = 30) :=
  ⟨⟨by decide, by decide⟩, c8_drawdown scenD 1000 (by decide) (by decide)⟩

/-! ## Claim C4 -/

/-- C4 (code bug): on a completely flat series (15 candles of constant close
100, period 14) both smoothed averages are `0`, and `calculateRSI` computes
`100 - 100/(1 + 0/0) = NaN` — not the value `100` the specification requires
for the zero-loss case, and not a value in `[0, 100]`. -/
theorem c4_flat_series_nan : calculateRSI c4flat 14 = [⟨14, JSNum.nan⟩] := by
  decide

/-! ## Claim C9 -/

/-- C9 (counterexample): for the empty signal list, the buy-and-hold fields
are `NaN`, not zero-valued: `holdProfitPercentage = (0 - 0)/0 * 100 = NaN`
and `holdFinalCapital = 1000 * (1 + NaN/100) = NaN`. -/
theorem c9_counterexample :
    (calculateTradingStats [] 1000).holdProfitPercentage ≠ JSNum.num 0 ∧
      (calculateTradingStats [] 1000).holdFinalCapital = JSNum.nan := by
  refine ⟨?_, by decide⟩
  decide

/-- C9 (amended): for the empty signal list and any nonzero initial capital,
`calculateTradingStats` returns without raising, with
`totalTrades = 0`, `winRate = 0`, `maxDrawdown = 0`, `totalProfit = 0`,
`winningTrades = 0`, `profitPercentage = 0`, `finalCapital` equal to the
initial capital and an empty trade list — but the buy-and-hold fields
`holdProfitPercentage` and `holdFinalCapital` are `NaN`, not zero.  (For
zero initial capital, `profitPercentage` is also `NaN`.)  The original
claim's generalization to arbitrary non-alternating input is false for a
second reason: the validation filter keeps an alternating substream, so a
non-alternating list such as `[buy@100, sell@110, sell@105]` still produces
one trade with profit 100, not zero-valued trade fields. -/
theorem c9_amended (initialCapital : ℚ) (h : initialCapital ≠ 0) :
    ((calculateTradingStats [] initialCapital).totalTrades = 0 ∧
      (calculateTradingStats [] initialCapital).winRate = 0 ∧
      (calculateTradingStats [] initialCapital).maxDrawdown = 0 ∧
      (calculateTradingStats [] initialCapital).totalProfit = 0 ∧
      (calculateTradingStats [] initialCapital).winningTrades = 0 ∧
      (calculateTradingStats [] initialCapital).profitPercentage = JSNum.num 0 ∧
      (calculateTradingStats [] initialCapital).finalCapital = initialCapital ∧
      (calculateTradingStats [] initialCapital).trades = [] ∧
      (calculateTradingStats [] initialCapital).holdProfitPercentage = JSNum.nan ∧
      (calculateTradingStats [] initialCapital).holdFinalCapital = JSNum.nan) ∧
    ((calculateTradingStats c9nonAlt 1000).totalTrades = 1 ∧
      (calculateTradingStats c9nonAlt 1000).totalProfit = 100) := by
  refine ⟨?_, by decide, by decide⟩
  unfold calculateTradingStats jsValidationFilter tradeLoop
  refine ⟨rfl, rfl, rfl, sub_self _, rfl, ?_, rfl, rfl, rfl, rfl⟩
  show JSNum.mul (JSNum.div (.num (initialCapital - initialCapital)) (.num initialCapital))
    (.num 100) = JSNum.num 0
  rw [sub_self]
  simp only [JSNum.div, JSNum.mul, if_neg h, zero_div, zero_mul]

/-- C9 witness: the amended theorem at initial capital 1000. -/
theorem c9_amended_witness :
    (1000 : ℚ) ≠ 0 ∧
      (((calculateTradingStats [] 1000).totalTrades = 0 ∧
        (calculateTradingStats [] 1000).winRate = 0 ∧
        (calculateTradingStats [] 1000).maxDrawdown = 0 ∧
        (calculateTradingStats [] 1000).totalProfit = 0 ∧
        (calculateTradingStats [] 1000).winningTrades = 0 ∧
        (calculateTradingStats [] 1000).profitPercentage = JSNum.num 0 ∧
        (calculateTradingStats [] 1000).finalCapital = 1000 ∧
        (calculateTradingStats [] 1000).trades = [] ∧
        (calculateTradingStats [] 1000).holdProfitPercentage = JSNum.nan ∧
        (calculateTradingStats [] 1000).holdFinalCapital = JSNum.nan) ∧
      ((calculateTradingStats c9nonAlt 1000).totalTrades = 1 ∧
        (calculateTradingStats c9nonAlt 1000).totalProfit = 100)) :=
  ⟨by decide, c9_amended 1000 (by decide)⟩

/-! ## Claim C10 -/

/-- C10: for every non-empty signal list and any initial capital, the
buy-and-hold baseline of `calculateTradingStats` is computed from the first
and last signal's price (candles are not even passed to the function):
`holdProfitPercentage = (last.price - first.price)/first.price * 100` and
`holdFinalCapital = initialCapital * (1 + holdProfitPercentage/100)`, as
JavaScript-number computations. -/
theorem c10_hold_baseline (signals : List TradingSignal) (initialCapital : ℚ)
    (first last : TradingSignal)
    (h1 : signals.head? = some first) (h2 : signals.getLast? = some last) :
    (calculateTradingStats signals initialCapital).holdProfitPercentage =
        JSNum.mul (JSNum.div (JSNum.num (last.price - first.price)) (JSNum.num first.price))
          (JSNum.num 100) ∧
      (calculateTradingStats signals initialCapital).holdFinalCapital =
        JSNum.mul (JSNum.num initialCapital)
          (JSNum.add (JSNum.num 1)
            (JSNum.div ((calculateTradingStats signals initialCapital).holdProfitPercentage)
              (JSNum.num 100))) := by
  unfold calculateTradingStats
  rw [h1, h2]
  exact ⟨rfl, rfl⟩

/-- C10 witness: the theorem applied to Scenario C's signal list. -/
theorem c10_witness :
    (scenC.head? = some ⟨0, .buy, 100, none⟩ ∧
        scenC.getLast? = some ⟨1, .sell, 110, none⟩) ∧
      ((calculateTradingStats scenC 1000).holdProfitPercentage =
          JSNum.mul (JSNum.div (JSNum.num (110 - 100)) (JSNum.num 100)) (JSNum.num 100) ∧
        (calculateTradingStats scenC 1000).holdFinalCapital =
          JSNum.mul (JSNum.num 1000)
            (JSNum.add (JSNum.num 1)
              (JSNum.div ((calculateTradingStats scenC 1000).holdProfitPercentage)
                (JSNum.num 100)))) :=
  ⟨⟨by decide, by decide⟩,
    c10_hold_baseline scenC 1000 ⟨0, .buy, 100, none⟩ ⟨1, .sell, 110, none⟩
      (by decide) (by decide)⟩

/-! ## Claim C5 -/

theorem mem_rsiSignalsBody_time (data : List Kline) (rsi : List RSIValue) (j : ℕ)
    (x : TradingSignal) (hx : x ∈ rsiSignalsBody data rsi j) :
    x.time = (data.getD j dfltKline).time := by
  simp only [rsiSignalsBody] at hx
  split at hx
  · rw [List.mem_append] at hx
    rcases hx with hx | hx <;> split at hx <;> simp_all
  · simp at hx

theorem mem_rsiSignalsBody_buy_iff (data : List Kline) (period i : ℕ) :
    (mkRSIBuySignal data i ∈ rsiSignalsBody data (calculateRSI data period) i) ↔
      rsiRawBuyCond data period i = true := by
  unfold rsiSignalsBody rsiRawBuyCond mkRSIBuySignal
  by_cases h1 : ((calculateRSI data period).getD i dfltRSI).value.truthy
  · by_cases h2 : ((calculateRSI data period).getD (i - 1) dfltRSI).value.truthy
    · by_cases hb : (((calculateRSI data period).getD i dfltRSI).value.blt (.num 30)
          && ((calculateRSI data period).getD (i - 1) dfltRSI).value.blt (.num 30)
          && decide ((data.getD i dfltKline).low < (data.getD (i - 1) dfltKline).low)
          && ((calculateRSI data period).getD i dfltRSI).value.bgt
              ((calculateRSI data period).getD (i - 1) dfltRSI).value) = true
      · by_cases hs : (((calculateRSI data period).getD i dfltRSI).value.bgt (.num 70)
            && ((calculateRSI data period).getD (i - 1) dfltRSI).value.bgt (.num 70)
            && decide ((data.getD i dfltKline).high > (data.getD (i - 1) dfltKline).high)
            && ((calculateRSI data period).getD i dfltRSI).value.blt
                ((calculateRSI data period).getD (i - 1) dfltRSI).value) = true
        · simp [h1, h2, hb, hs]
        · simp [h1, h2, hb, hs]
      · by_cases hs : (((calculateRSI data period).getD i dfltRSI).value.bgt (.num 70)
            && ((calculateRSI data period).getD (i - 1) dfltRSI).value.bgt (.num 70)
            && decide ((data.getD i dfltKline).high > (data.getD (i - 1) dfltKline).high)
            && ((calculateRSI data period).getD i dfltRSI).value.blt
                ((calculateRSI data period).getD (i - 1) dfltRSI).value) = true
        · simp [h1, h2, hb, hs]
        · simp [h1, h2, hb, hs]
    · simp [h1, h2]
  · simp [h1]

theorem mem_rsiSignalsBody_sell_iff (data : List Kline) (period i : ℕ) :
    (mkRSISellSignal data i ∈ rsiSignalsBody data (calculateRSI data period) i) ↔
      rsiRawSellCond data period i = true := by
  unfold rsiSignalsBody rsiRawSellCond mkRSISellSignal
  by_cases h1 : ((calculateRSI data period).getD i dfltRSI).value.truthy
  · by_cases h2 : ((calculateRSI data period).getD (i - 1) dfltRSI).value.truthy
    · by_cases hb : (((calculateRSI data period).getD i dfltRSI).value.blt (.num 30)
          && ((calculateRSI data period).getD (i - 1) dfltRSI).value.blt (.num 30)
          && decide ((data.getD i dfltKline).low < (data.getD (i - 1) dfltKline).low)
          && ((calculateRSI data period).getD i dfltRSI).value.bgt
              ((calculateRSI data period).getD (i - 1) dfltRSI).value) = true
      · by_cases hs : (((calculateRSI data period).getD i dfltRSI).value.bgt (.num 70)
            && ((calculateRSI data period).getD (i - 1) dfltRSI).value.bgt (.num 70)
            && decide ((data.getD i dfltKline).high > (data.getD (i - 1) dfltKline).high)
            && ((calculateRSI data period).getD i dfltRSI).value.blt
                ((calculateRSI data period).getD (i - 1) dfltRSI).value) = true
        · simp [h1, h2, hb, hs]
        · simp [h1, h2, hb, hs]
      · by_cases hs : (((calculateRSI data period).getD i dfltRSI).value.bgt (.num 70)
            && ((calculateRSI data period).getD (i - 1) dfltRSI).value.bgt (.num 70)
            && decide ((data.getD i dfltKline).high > (data.getD (i - 1) dfltKline).high)
            && ((calculateRSI data period).getD i dfltRSI).value.blt
                ((calculateRSI data period).getD (i - 1) dfltRSI).value) = true
        · simp [h1, h2, hb, hs]
        · simp [h1, h2, hb, hs]
    · simp [h1, h2]
  · simp [h1]

theorem getD_time_inj (data : List Kline)
    (hmono : data.Pairwise fun a b => a.time < b.time)
    {i j : ℕ} (hi : i < data.length) (hj : j < data.length)
    (h : (data.getD i dfltKline).time = (data.getD j dfltKline).time) : i = j := by
  rcases lt_trichotomy i j with hij | hij | hij
  · have hlt := List.pairwise_iff_getElem.mp hmono i j hi hj hij
    rw [List.getD_eq_getElem data dfltKline hi, List.getD_eq_getElem data dfltKline hj] at h
    exact absurd h (ne_of_lt hlt)
  · exact hij
  · have hlt := List.pairwise_iff_getElem.mp hmono j i hj hi hij
    rw [List.getD_eq_getElem data dfltKline hi, List.getD_eq_getElem data dfltKline hj] at h
    exact absurd h.symm (ne_of_lt hlt)

set_option maxRecDepth 1000000 in
/-- C5 (counterexample): on `c5data` (34 candles, period 14) the detector
emits a buy at candle 14, although the claim's index-aligned condition fails
there — the RSI value aligned to candle 14 is `rsiValues[0] = 100`, not
below 30.  The code reads `rsiValues[14]` and `rsiValues[13]` instead, the
RSI values of candles 28 and 27. -/
theorem c5_counterexample :
    generateRSISignals c5data 14 = [⟨14, .buy, 114, some "RSI bullish divergence"⟩] ∧
      c5AlignedBuyCond c5data 14 14 = false := by
  constructor
  · decide
  · decide

/-- C5 (amended): for a candle series with strictly increasing timestamps,
the RSI-divergence detector emits a buy (resp. sell) signal for candle `i`
exactly when the series is long enough (`period + 20` candles), `i` lies in
the loop range `[max 2 period, min(len(rsi), len(data), len(sma20)))`, and
the detector's condition holds with the *raw* RSI-array entries
`rsiValues[i]`, `rsiValues[i-1]` — which are index-aligned to candles
`i + period` and `i + period - 1`, not to candles `i` and `i-1` — together
with the JavaScript truthiness guard on those two RSI values. -/
theorem c5_amended (data : List Kline) (period i : ℕ)
    (hmono : data.Pairwise fun a b => a.time < b.time)
    (hi : i < data.length) :
    ((mkRSIBuySignal data i ∈ generateRSISignals data period) ↔
      (period + 20 ≤ data.length ∧
        max 2 period ≤ i ∧
        i < min (min (calculateRSI data period).length data.length)
            (calculateSMA data 20).length ∧
        rsiRawBuyCond data period i = true)) ∧
    ((mkRSISellSignal data i ∈ generateRSISignals data period) ↔
      (period + 20 ≤ data.length ∧
        max 2 period ≤ i ∧
        i < min (min (calculateRSI data period).length data.length)
            (calculateSMA data 20).length ∧
        rsiRawSellCond data period i = true)) := by
  have hgen : ∀ (x : TradingSignal), x.time = (data.getD i dfltKline).time →
      (x ∈ generateRSISignals data period ↔
        (period + 20 ≤ data.length ∧
          max 2 period ≤ i ∧
          i < min (min (calculateRSI data period).length data.length)
              (calculateSMA data 20).length ∧
          x ∈ rsiSignalsBody data (calculateRSI data period) i)) := by
    intro x hxtime
    unfold generateRSISignals
    split
    · next hlen =>
        simp only [List.not_mem_nil, false_iff]
        rintro ⟨h1, -, -, -⟩
        omega
    · next hlen =>
        simp only [List.mem_flatMap, List.mem_range'_1]
        constructor
        · rintro ⟨j, ⟨hj1, hj2⟩, hjbody⟩
          have hjlt : j < min (min (calculateRSI data period).length data.length)
              (calculateSMA data 20).length := by omega
          have hjdata : j < data.length :=
            lt_of_lt_of_le hjlt ((min_le_left _ _).trans (min_le_right _ _))
          have htime := mem_rsiSignalsBody_time data _ j x hjbody
          have hij : i = j :=
            getD_time_inj data hmono hi hjdata (hxtime.symm.trans htime)
          subst hij
          exact ⟨by omega, hj1, hjlt, hjbody⟩
        · rintro ⟨h1, h2, h3, h4⟩
          exact ⟨i, ⟨h2, by omega⟩, h4⟩
  constructor
  · rw [hgen (mkRSIBuySignal data i) rfl]
    rw [mem_rsiSignalsBody_buy_iff]
  · rw [hgen (mkRSISellSignal data i) rfl]
    rw [mem_rsiSignalsBody_sell_iff]

/-- C5 witness: the amended characterization applied at candle 14 of the
concrete 34-candle series. -/
theorem c5_amended_witness :
    ((mkRSIBuySignal c5data 14 ∈ generateRSISignals c5data 14) ↔
      (14 + 20 ≤ c5data.length ∧
        max 2 14 ≤ 14 ∧
        14 < min (min (calculateRSI c5data 14).length c5data.length)
            (calculateSMA c5data 20).length ∧
        rsiRawBuyCond c5data 14 14 = true)) ∧
    ((mkRSISellSignal c5data 14 ∈ generateRSISignals c5data 14) ↔
      (14 + 20 ≤ c5data.length ∧
        max 2 14 ≤ 14 ∧
        14 < min (min (calculateRSI c5data 14).length c5data.length)
            (calculateSMA c5data 20).length ∧
        rsiRawSellCond c5data 14 14 = true)) :=
  c5_amended c5data 14 14 (by decide) (by decide)

end BotCrypto
